import Mathlib

/-!
Verification development for the WeatherWX screenshot automation script
(src/WeatherWX.py). The script is embedded shallowly: the scheduler
arithmetic of main, the filename generation, the capture driver
take_screenshot (as an event trace over a fault environment), the overlay
stamper add_timestamp_overlay (as a pixel-level image transformation and a
file-state transition), and the main loop (as a per-cycle trace with a
top-level exception handler).
-/

/-! ## Configuration constants (lines 16-19 of WeatherWX.py) -/

def URL1 : String := "https://forecast.weather.gov/MapClick.php?lon=-93.222&lat=44.884"

def URL2 : String := "https://www.wunderground.com/wundermap?lat=44.882&lon=-93.222&zoom=13"

def SCREENSHOT_DIR : String := "."

def SCROLL_AMOUNT : Int := 300

/-! ## Wall-clock model

datetime.now() is modelled with an absolute hour index (so that adding
timedelta(hours=1) is hour + 1, independent of the calendar date), plus
minute, second and microsecond fields.  A datetime comparison or
subtraction is the comparison or subtraction of total microseconds. -/

structure DateTime where
  hour : Nat
  minute : Nat
  second : Nat
  usec : Nat
deriving DecidableEq

def validDT (t : DateTime) : Prop :=
  t.minute < 60 ∧ t.second < 60 ∧ t.usec < 1000000

instance (t : DateTime) : Decidable (validDT t) := by
  unfold validDT; infer_instance

def toUSec (t : DateTime) : Nat :=
  ((t.hour * 60 + t.minute) * 60 + t.second) * 1000000 + t.usec

/-- now.replace(minute=53, second=0, microsecond=0)  (line 117). -/
def replace53 (now : DateTime) : DateTime :=
  ⟨now.hour, 53, 0, 0⟩

/-- target2 after the conditional roll: `if now > target2: target2 += timedelta(hours=1)` (lines 117-119). -/
def schedTarget (now : DateTime) : DateTime :=
  if toUSec (replace53 now) < toUSec now then ⟨now.hour + 1, 53, 0, 0⟩
  else replace53 now

/-- wait_to_url2 = (target2 - now).total_seconds()  (line 120), in microseconds. -/
def waitUSec (now : DateTime) : Int :=
  (toUSec (schedTarget now) : Int) - (toUSec now : Int)

/-! ## Filename generation (lines 87-90)

timestamp = datetime.now().strftime("%Y%m%d_%H%M%S");
filename = prefix + "_" + timestamp + ".png". -/

structure Timestamp where
  year : Nat
  month : Nat
  day : Nat
  hour : Nat
  minute : Nat
  second : Nat
deriving DecidableEq

def pad2 (n : Nat) : String :=
  if n < 10 then "0" ++ toString n else toString n

def pad4 (n : Nat) : String :=
  if n < 10 then "000" ++ toString n
  else if n < 100 then "00" ++ toString n
  else if n < 1000 then "0" ++ toString n
  else toString n

/-- strftime("%Y%m%d_%H%M%S") on the modelled timestamp. -/
def strftimeCompact (t : Timestamp) : String :=
  pad4 t.year ++ pad2 t.month ++ pad2 t.day ++ "_" ++
    pad2 t.hour ++ pad2 t.minute ++ pad2 t.second

/-- filename = f-string prefix + "_" + timestamp + ".png"  (line 89). -/
def screenshotFilename (pfx : String) (t : Timestamp) : String :=
  pfx ++ "_" ++ strftimeCompact t ++ ".png"

/-- filepath = SCREENSHOT_DIR + "/" + filename  (line 90). -/
def screenshotFilepath (pfx : String) (t : Timestamp) : String :=
  SCREENSHOT_DIR ++ "/" ++ screenshotFilename pfx t

/-! ## Image model and the overlay stamper add_timestamp_overlay (lines 22-59)

An image is a width, a height and a total pixel function (values outside
the bounds are irrelevant: every property below constrains coordinates to
the bounds).  PIL text rendering is abstracted by a FontSpec: the measured
text box (text_width, text_height from draw.textbbox, line 42-44) and a
glyph raster telling which pixel of the rendered string is inked.
Drawing writes pixels independently of the previous content (the draw
calls of lines 49 and 52 target the opened image directly; on an RGB
canvas the alpha component of the fill is ignored, so the rectangle is
an opaque white and the text an opaque black). -/

structure Color where
  r : Nat
  g : Nat
  b : Nat
deriving DecidableEq

def white : Color := ⟨255, 255, 255⟩

def black : Color := ⟨0, 0, 0⟩

structure Img where
  width : Nat
  height : Nat
  pix : Nat → Nat → Color

structure FontSpec where
  tw : Nat
  th : Nat
  raster : Nat → Nat → Bool

/-- Whether the text drawn at (10, 10) (lines 45-46, 52) inks pixel (px, py). -/
def textAt (f : FontSpec) (px py : Nat) : Bool :=
  10 ≤ px && 10 ≤ py && f.raster (px - 10) (py - 10)

/-- The background rectangle [x-5, y-5, x+tw+5, y+th+5] = [5, 5, 15+tw, 15+th]
(line 49); PIL rectangles include both corner pixels. -/
def inRect (f : FontSpec) (px py : Nat) : Bool :=
  5 ≤ px && px ≤ 15 + f.tw && 5 ≤ py && py ≤ 15 + f.th

/-- The in-memory effect of the two draw calls (lines 49 and 52): the
rectangle is filled white, then the text is drawn black on top of it. -/
def stamp (f : FontSpec) (img : Img) : Img :=
  { width := img.width
    height := img.height
    pix := fun px py =>
      if textAt f px py then black
      else if inRect f px py then white
      else img.pix px py }

/-- Some in-bounds pixel of the stamped top-left region (the overlay
rectangle) differs between the two images. -/
def topLeftDiffers (f : FontSpec) (a b : Img) : Prop :=
  ∃ px py, px < b.width ∧ py < b.height ∧ inRect f px py = true ∧
    a.pix px py ≠ b.pix px py

/-- The points at which add_timestamp_overlay can raise an Exception:
Image.open (line 28), the draw calls (lines 42-52), img.save (line 55).
ImageFont.truetype (line 37) failing is the separately handled font
fallback.  A save failure leaves the file as it was (atomic-write model). -/
inductive OvStage where
  | openImg
  | loadFont
  | drawStep
  | saveImg
deriving DecidableEq

structure OvEnv where
  failStage : Option OvStage
  fontArial : FontSpec
  fontDefault : FontSpec

/-- The try body of add_timestamp_overlay (lines 26-56): Except.error is a
raised Exception, Except.ok the new file content after img.save. -/
def overlayBody (img : Img) (env : OvEnv) : Except Unit Img :=
  if env.failStage = some OvStage.openImg then Except.error ()
  else
    let font := if env.failStage = some OvStage.loadFont then env.fontDefault
      else env.fontArial
    if env.failStage = some OvStage.drawStep then Except.error ()
    else if env.failStage = some OvStage.saveImg then Except.error ()
    else Except.ok (stamp font img)

/-- add_timestamp_overlay (lines 22-59): the whole body sits in a
try/except Exception that prints and returns, so the call always returns
normally (Bool component) and on error the file keeps its old content. -/
def add_timestamp_overlay (img : Img) (env : OvEnv) : Img × Bool :=
  match overlayBody img env with
  | Except.ok newImg => (newImg, true)
  | Except.error _ => (img, true)

/-! ## Capture driver take_screenshot (lines 62-104)

Modelled as an event trace over a fault environment naming the first
point that raises an Exception.  Driver construction (lines 75-76) sits
before the try, navigation through screenshot sit inside the try (lines
78-99) whose except Exception (line 100) swallows the error, and
driver.quit() runs in the finally (lines 103-104).
add_timestamp_overlay never raises (it catches internally), so it is an
infallible step. -/

inductive DrvEvent where
  | navigate (url : String)
  | settle (secs : Nat)
  | execScript (script : String)
  | saveShot (path : String)
  | stampShot (path : String)
  | quit
deriving DecidableEq

inductive DrvStage where
  | init
  | navigate
  | settle
  | scroll
  | capture
deriving DecidableEq

inductive TSOutcome where
  | ok
  | raised
deriving DecidableEq

structure DrvEnv where
  failStage : Option DrvStage
  ts : Timestamp

/-- The f-string "window.scrollTo(0, ...);" of line 84. -/
def scrollScript (n : Int) : String :=
  "window.scrollTo(0, " ++ toString n ++ ");"

/-- The fallible steps of the try body, in program order: each entry is
the stage at which it can raise (none for an infallible step) and the
events it emits when it completes. -/
def tsSteps (url : String) (pfx : String) (scroll : Int) (addOverlay : Bool)
    (ts : Timestamp) : List (Option DrvStage × List DrvEvent) :=
  [(some DrvStage.navigate, [DrvEvent.navigate url]),
   (some DrvStage.settle, [DrvEvent.settle 8])] ++
  (if scroll > 0 then
    [(some DrvStage.scroll,
      [DrvEvent.execScript (scrollScript scroll), DrvEvent.settle 1])]
   else []) ++
  [(some DrvStage.capture, [DrvEvent.saveShot (screenshotFilepath pfx ts)])] ++
  (if addOverlay then [(none, [DrvEvent.stampShot (screenshotFilepath pfx ts)])]
   else [])

/-- Run the steps until the faulting one (which emits nothing); the Bool
records whether an Exception was raised. -/
def runSteps (fail : Option DrvStage) :
    List (Option DrvStage × List DrvEvent) → List DrvEvent × Bool
  | [] => ([], false)
  | (st, evs) :: rest =>
    match st with
    | some s =>
      if fail = some s then ([], true)
      else
        let r := runSteps fail rest
        (evs ++ r.1, r.2)
    | none =>
      let r := runSteps fail rest
      (evs ++ r.1, r.2)

/-- take_screenshot (lines 62-104).  A failure of
ChromeDriverManager().install() or webdriver.Chrome(...) (lines 75-76)
happens before the try: nothing is caught, no quit runs, the call raises.
Otherwise any raise inside the try is caught by except Exception and
driver.quit() runs in the finally, so the call returns normally with quit
as the last event. -/
def take_screenshot (url : String) (pfx : String) (scroll : Int)
    (addOverlay : Bool) (env : DrvEnv) : List DrvEvent × TSOutcome :=
  if env.failStage = some DrvStage.init then ([], TSOutcome.raised)
  else
    let r := runSteps env.failStage (tsSteps url pfx scroll addOverlay env.ts)
    (r.1 ++ [DrvEvent.quit], TSOutcome.ok)

/-! ## Main loop (lines 107-146)

Each cycle of the while True loop is a trace of coarse events.  A cycle
input carries the wall-clock time read at line 116 and an optional raise
reaching main's handlers: the step index (0 = the wait sleep of line 124,
1 = take_screenshot of line 128, 2 = time.sleep(600) of line 132,
3 = take_screenshot of line 136) and whether it is a KeyboardInterrupt or
an Exception.  A raise at an index beyond the executed steps never
happens.  except KeyboardInterrupt breaks the loop (line 142);
except Exception sleeps 60 seconds and continues (lines 143-145); main
returning ends the process with exit code 0. -/

inductive CycleEvent where
  | waitSleep (usec : Int)
  | shot (url : String) (pfx : String) (scroll : Int) (overlay : Bool)
  | fixedSleep (secs : Nat)
  | handlerSleep (secs : Nat)
deriving DecidableEq

inductive PyRaise where
  | error
  | interrupt
deriving DecidableEq

inductive CycleExit where
  | cont
  | brk
deriving DecidableEq

structure CycleInput where
  now : DateTime
  fault : Option (Nat × PyRaise)

/-- The statements of one fault-free cycle body (lines 116-136): the
conditional wait sleep, take_screenshot(URL2, "screenshot2",
add_overlay=True), time.sleep(600), take_screenshot(URL1, "screenshot1",
scroll=SCROLL_AMOUNT). -/
def cycleSteps (now : DateTime) : List CycleEvent :=
  (if waitUSec now > 0 then [CycleEvent.waitSleep (waitUSec now)] else []) ++
  [CycleEvent.shot URL2 "screenshot2" 0 true,
   CycleEvent.fixedSleep 600,
   CycleEvent.shot URL1 "screenshot1" SCROLL_AMOUNT false]

/-- One pass through the try of the while body together with the handler
that fires (lines 113-145). -/
def cycleRun (inp : CycleInput) : List CycleEvent × CycleExit :=
  let body := cycleSteps inp.now
  match inp.fault with
  | none => (body, CycleExit.cont)
  | some (i, k) =>
    if i < body.length then
      match k with
      | PyRaise.error => (body.take i ++ [CycleEvent.handlerSleep 60], CycleExit.cont)
      | PyRaise.interrupt => (body.take i, CycleExit.brk)
    else (body, CycleExit.cont)

/-- The while True loop over a finite stream of cycle inputs: some 0 when
a KeyboardInterrupt broke the loop and main returned (process exit code
0), none while the loop is still running when the stream ends. -/
def mainRun : List CycleInput → Option Nat
  | [] => none
  | inp :: rest =>
    match (cycleRun inp).2 with
    | CycleExit.brk => some 0
    | CycleExit.cont => mainRun rest

/-- The capture events among the cycle events. -/
def isShot : CycleEvent → Bool
  | CycleEvent.shot _ _ _ _ => true
  | _ => false

/-- Capture task A: take_screenshot(URL2, "screenshot2", add_overlay=True)
(line 128; scroll keeps its default 0). -/
def shotA : CycleEvent := CycleEvent.shot URL2 "screenshot2" 0 true

/-- Capture task B: take_screenshot(URL1, "screenshot1", scroll=SCROLL_AMOUNT)
(line 136; add_overlay keeps its default False). -/
def shotB : CycleEvent := CycleEvent.shot URL1 "screenshot1" SCROLL_AMOUNT false

/-- l is an initial segment of big. -/
def isInitialSegment {α : Type} (l big : List α) : Prop :=
  ∃ t, l ++ t = big

/-! ## Theorems -/

/-- C2: for every valid current time strictly before minute 53 of its
hour, the computed target is minute 53, second 0 of the current hour (no
roll), the computed wait is exactly that target minus the current instant
(in microseconds), and the wait is nonnegative. -/
theorem sched_wait_before_53 (now : DateTime) (h : validDT now)
    (hm : now.minute < 53) :
    schedTarget now = replace53 now ∧
    waitUSec now = (toUSec (replace53 now) : Int) - (toUSec now : Int) ∧
    0 ≤ waitUSec now := by
  obtain ⟨h1, h2, h3⟩ := h
  have hlt : toUSec now < toUSec (replace53 now) := by
    simp only [toUSec, replace53]
    omega
  have hs : schedTarget now = replace53 now := by
    unfold schedTarget
    rw [if_neg]
    omega
  refine ⟨hs, ?_, ?_⟩
  · unfold waitUSec
    rw [hs]
  · unfold waitUSec
    rw [hs]
    omega

/-- Witness for sched_wait_before_53 at 01:10:00.000000. -/
theorem sched_wait_before_53_witness :
    schedTarget ⟨1, 10, 0, 0⟩ = replace53 ⟨1, 10, 0, 0⟩ ∧
    waitUSec ⟨1, 10, 0, 0⟩ =
      (toUSec (replace53 ⟨1, 10, 0, 0⟩) : Int) - (toUSec ⟨1, 10, 0, 0⟩ : Int) ∧
    0 ≤ waitUSec ⟨1, 10, 0, 0⟩ :=
  sched_wait_before_53 ⟨1, 10, 0, 0⟩ (by decide) (by decide)

/-- C1 counterexample: at exactly 07:53:00.000000 the minute-of-hour is
53, yet the computed target does not roll to the next hour: the strict
comparison of line 118 leaves target2 equal to the current instant. -/
theorem sched_roll_at_exact_53_fails :
    validDT ⟨7, 53, 0, 0⟩ ∧ 53 ≤ (⟨7, 53, 0, 0⟩ : DateTime).minute ∧
    (schedTarget ⟨7, 53, 0, 0⟩).hour ≠ 7 + 1 := by
  refine ⟨by decide, by decide, ?_⟩
  decide

/-- C1 amended: for every valid current time at or after minute 53 that
is not exactly second 0, microsecond 0 of minute 53, the computed target
rolls to minute 53 of the next hour (at exactly :53:00.000000 the target
is the current instant itself); and for every valid current time the
computed wait is in [0, 3600) seconds, i.e. [0, 3600000000) microseconds. -/
theorem sched_roll_and_wait_bounds (now : DateTime) (h : validDT now) :
    ((53 ≤ now.minute ∧ (now.minute ≠ 53 ∨ now.second ≠ 0 ∨ now.usec ≠ 0)) →
      (schedTarget now).hour = now.hour + 1) ∧
    0 ≤ waitUSec now ∧ waitUSec now < 3600 * 1000000 := by
  obtain ⟨h1, h2, h3⟩ := h
  rcases lt_or_ge (toUSec (replace53 now)) (toUSec now) with hc | hc
  · have hs : schedTarget now = ⟨now.hour + 1, 53, 0, 0⟩ := by
      unfold schedTarget
      exact if_pos hc
    refine ⟨fun _ => by rw [hs], ?_, ?_⟩
    · unfold waitUSec
      rw [hs]
      simp only [toUSec, replace53] at hc ⊢
      omega
    · unfold waitUSec
      rw [hs]
      simp only [toUSec, replace53] at hc ⊢
      omega
  · have hs : schedTarget now = replace53 now := by
      unfold schedTarget
      rw [if_neg (not_lt.mpr hc)]
    refine ⟨?_, ?_, ?_⟩
    · rintro ⟨hm, hne⟩
      exfalso
      simp only [toUSec, replace53] at hc
      rcases hne with hne | hne | hne <;> omega
    · unfold waitUSec
      rw [hs]
      omega
    · unfold waitUSec
      rw [hs]
      simp only [toUSec, replace53] at hc ⊢
      omega

/-- Witness for sched_roll_and_wait_bounds at 02:55:10.000005: the target
rolls to hour 3 and the wait is within bounds. -/
theorem sched_roll_and_wait_bounds_witness :
    (schedTarget ⟨2, 55, 10, 5⟩).hour = 2 + 1 ∧
    0 ≤ waitUSec ⟨2, 55, 10, 5⟩ ∧ waitUSec ⟨2, 55, 10, 5⟩ < 3600 * 1000000 :=
  ⟨(sched_roll_and_wait_bounds ⟨2, 55, 10, 5⟩ (by decide)).1 (by decide),
   (sched_roll_and_wait_bounds ⟨2, 55, 10, 5⟩ (by decide)).2⟩

/-- C5 counterexample: at prefix "Wunderground" and timestamp
2025-11-04 14:00:00 the generated filename is
"Wunderground_20251104_140000.png" (strftime "%Y%m%d_%H%M%S", underscore
separator), not "Wunderground 2025-11-04 14:00:00.png". -/
theorem filename_format_counterexample :
    screenshotFilename "Wunderground" ⟨2025, 11, 4, 14, 0, 0⟩ ≠
      "Wunderground 2025-11-04 14:00:00.png" := by
  decide

/-- C5 amended: filename generation is a deterministic function of the
prefix and the timestamp, and at prefix "Wunderground" and timestamp
2025-11-04 14:00:00 it yields "Wunderground_20251104_140000.png". -/
theorem filename_deterministic_compact :
    (∀ (pfx : String) (t1 t2 : Timestamp), t1 = t2 →
      screenshotFilename pfx t1 = screenshotFilename pfx t2) ∧
    screenshotFilename "Wunderground" ⟨2025, 11, 4, 14, 0, 0⟩ =
      "Wunderground_20251104_140000.png" := by
  refine ⟨fun pfx t1 t2 h => by rw [h], ?_⟩
  decide

/-- Witness for filename_deterministic_compact: two generations at the
same prefix and timestamp coincide. -/
theorem filename_deterministic_compact_witness :
    screenshotFilename "screenshot2" ⟨2025, 1, 2, 3, 4, 5⟩ =
      screenshotFilename "screenshot2" ⟨2025, 1, 2, 3, 4, 5⟩ :=
  filename_deterministic_compact.1 "screenshot2" ⟨2025, 1, 2, 3, 4, 5⟩
    ⟨2025, 1, 2, 3, 4, 5⟩ rfl

/-- Every event of the runSteps trace comes from the event list of one of
the steps. -/
theorem runSteps_mem_source (fail : Option DrvStage)
    (steps : List (Option DrvStage × List DrvEvent)) (e : DrvEvent)
    (he : e ∈ (runSteps fail steps).1) : ∃ p, p ∈ steps ∧ e ∈ p.2 := by
  induction steps with
  | nil => simp [runSteps] at he
  | cons hd tl ih =>
    obtain ⟨st, evs⟩ := hd
    cases st with
    | some s =>
      by_cases hf : fail = some s
      · simp [runSteps, hf] at he
      · simp only [runSteps, if_neg hf] at he
        rcases List.mem_append.mp he with h | h
        · exact ⟨(some s, evs), List.mem_cons_self _ _, h⟩
        · obtain ⟨p, hp, hep⟩ := ih h
          exact ⟨p, List.mem_cons_of_mem _ hp, hep⟩
    | none =>
      simp only [runSteps] at he
      rcases List.mem_append.mp he with h | h
      · exact ⟨(none, evs), List.mem_cons_self _ _, h⟩
      · obtain ⟨p, hp, hep⟩ := ih h
        exact ⟨p, List.mem_cons_of_mem _ hp, hep⟩

/-- C6: with scroll offset 0 the capture driver never issues a scroll
instruction: no execute_script event of any script string appears in the
trace of take_screenshot, in any fault environment. -/
theorem no_scroll_when_zero (url pfx : String) (ov : Bool) (env : DrvEnv)
    (s : String) :
    DrvEvent.execScript s ∉ (take_screenshot url pfx 0 ov env).1 := by
  intro hmem
  unfold take_screenshot at hmem
  by_cases hi : env.failStage = some DrvStage.init
  · rw [if_pos hi] at hmem
    simp at hmem
  · rw [if_neg hi] at hmem
    simp only at hmem
    rcases List.mem_append.mp hmem with h | h
    · obtain ⟨p, hp, hep⟩ := runSteps_mem_source _ _ _ h
      unfold tsSteps at hp
      simp only [show ¬((0 : Int) > 0) by decide, if_false, List.nil_append,
        List.append_nil] at hp
      rcases List.mem_append.mp hp with hp1 | hp2
      · rcases List.mem_append.mp hp1 with hp3 | hp4
        · simp at hp3
          rcases hp3 with hp3 | hp3 <;> rw [hp3] at hep <;> simp at hep
        · simp at hp4
          rw [hp4] at hep
          simp at hep
      · by_cases hov : ov = true
        · simp [hov] at hp2
          rw [hp2] at hep
          simp at hep
        · simp [hov] at hp2
    · simp at h

/-- C3: whenever the browser session itself is acquired (the failure, if
any, is not at driver construction), any Exception raised during
navigation, settling, scrolling or screenshot capture is caught inside
take_screenshot: the call returns normally, and driver.quit is the last
event of the trace on every such path. -/
theorem take_screenshot_catches_and_quits (url pfx : String) (scroll : Int)
    (ov : Bool) (env : DrvEnv) (h : env.failStage ≠ some DrvStage.init) :
    (take_screenshot url pfx scroll ov env).2 = TSOutcome.ok ∧
    (take_screenshot url pfx scroll ov env).1.getLast? = some DrvEvent.quit := by
  unfold take_screenshot
  rw [if_neg h]
  exact ⟨rfl, List.getLast?_concat _⟩

/-- Witness for take_screenshot_catches_and_quits: a screenshot-capture
failure on task A still returns normally with quit last. -/
theorem take_screenshot_catches_and_quits_witness :
    (take_screenshot URL2 "screenshot2" 0 true
        ⟨some DrvStage.capture, ⟨2025, 1, 1, 0, 0, 0⟩⟩).2 = TSOutcome.ok ∧
    (take_screenshot URL2 "screenshot2" 0 true
        ⟨some DrvStage.capture, ⟨2025, 1, 1, 0, 0, 0⟩⟩).1.getLast? =
      some DrvEvent.quit :=
  take_screenshot_catches_and_quits URL2 "screenshot2" 0 true
    ⟨some DrvStage.capture, ⟨2025, 1, 1, 0, 0, 0⟩⟩ (by decide)

/-- C10: a failure of driver installation or construction happens before
the try of take_screenshot, so it is not caught there: the call raises
with an empty trace (in particular no driver.quit teardown), and an
Exception reaching the main loop is caught by its top-level handler, which
continues the loop. -/
theorem init_failure_propagates :
    (∀ (url pfx : String) (scroll : Int) (ov : Bool) (env : DrvEnv),
      env.failStage = some DrvStage.init →
        (take_screenshot url pfx scroll ov env).2 = TSOutcome.raised ∧
        DrvEvent.quit ∉ (take_screenshot url pfx scroll ov env).1) ∧
    (∀ (inp : CycleInput) (i : Nat),
      inp.fault = some (i, PyRaise.error) → i < (cycleSteps inp.now).length →
        (cycleRun inp).2 = CycleExit.cont) := by
  constructor
  · intro url pfx scroll ov env h
    unfold take_screenshot
    rw [if_pos h]
    exact ⟨rfl, by simp⟩
  · intro inp i h hlen
    simp only [cycleRun, h]
    rw [if_pos hlen]

/-- Witness for init_failure_propagates: a construction failure raises
with no quit, and an Exception in a cycle leaves the loop continuing. -/
theorem init_failure_propagates_witness :
    ((take_screenshot URL1 "screenshot1" 300 false
        ⟨some DrvStage.init, ⟨2025, 1, 1, 0, 0, 0⟩⟩).2 = TSOutcome.raised ∧
     DrvEvent.quit ∉ (take_screenshot URL1 "screenshot1" 300 false
        ⟨some DrvStage.init, ⟨2025, 1, 1, 0, 0, 0⟩⟩).1) ∧
    (cycleRun ⟨⟨0, 0, 0, 0⟩, some (0, PyRaise.error)⟩).2 = CycleExit.cont :=
  ⟨init_failure_propagates.1 URL1 "screenshot1" 300 false
    ⟨some DrvStage.init, ⟨2025, 1, 1, 0, 0, 0⟩⟩ rfl,
   init_failure_propagates.2 ⟨⟨0, 0, 0, 0⟩, some (0, PyRaise.error)⟩ 0 rfl
    (by decide)⟩

/-- C8: add_timestamp_overlay always returns normally; when opening,
drawing or saving raises, the file keeps its pre-call content; a missing
font is handled by the fallback, after which the file is stamped with the
default font. -/
theorem overlay_error_handling (img : Img) (env : OvEnv) :
    (add_timestamp_overlay img env).2 = true ∧
    ((env.failStage = some OvStage.openImg ∨
      env.failStage = some OvStage.drawStep ∨
      env.failStage = some OvStage.saveImg) →
      (add_timestamp_overlay img env).1 = img) ∧
    (env.failStage = some OvStage.loadFont →
      (add_timestamp_overlay img env).1 = stamp env.fontDefault img) := by
  obtain ⟨fs, fa, fd⟩ := env
  cases fs with
  | none => simp [add_timestamp_overlay, overlayBody]
  | some st => cases st <;> simp [add_timestamp_overlay, overlayBody]

/-- Witness for overlay_error_handling: a draw failure returns normally
and leaves the all-black file unchanged. -/
theorem overlay_error_handling_witness :
    (add_timestamp_overlay ⟨100, 100, fun _ _ => black⟩
        ⟨some OvStage.drawStep, ⟨10, 10, fun _ _ => false⟩,
          ⟨8, 8, fun _ _ => false⟩⟩).2 = true ∧
    (add_timestamp_overlay ⟨100, 100, fun _ _ => black⟩
        ⟨some OvStage.drawStep, ⟨10, 10, fun _ _ => false⟩,
          ⟨8, 8, fun _ _ => false⟩⟩).1 = ⟨100, 100, fun _ _ => black⟩ :=
  ⟨(overlay_error_handling ⟨100, 100, fun _ _ => black⟩
      ⟨some OvStage.drawStep, ⟨10, 10, fun _ _ => false⟩,
        ⟨8, 8, fun _ _ => false⟩⟩).1,
   (overlay_error_handling ⟨100, 100, fun _ _ => black⟩
      ⟨some OvStage.drawStep, ⟨10, 10, fun _ _ => false⟩,
        ⟨8, 8, fun _ _ => false⟩⟩).2.1 (Or.inr (Or.inl rfl))⟩

/-- Stamping writes the overlay region independently of the previous
pixel content, so restamping changes no pixel. -/
theorem stamp_idem_pix (f : FontSpec) (img : Img) (px py : Nat) :
    (stamp f (stamp f img)).pix px py = (stamp f img).pix px py := by
  simp only [stamp]
  by_cases ht : textAt f px py <;> by_cases hr : inRect f px py <;>
    simp [ht, hr]

/-- C7 counterexample: an already-stamped image is a pre-stamp image for
which stamping changes nothing, so no bounding region of its top-left
corner differs after stamping. -/
theorem overlay_diff_counterexample :
    ¬ topLeftDiffers ⟨10, 10, fun a b => a == b⟩
        (stamp ⟨10, 10, fun a b => a == b⟩ ⟨100, 100, fun _ _ => black⟩)
        (stamp ⟨10, 10, fun a b => a == b⟩
          (stamp ⟨10, 10, fun a b => a == b⟩ ⟨100, 100, fun _ _ => black⟩)) := by
  rintro ⟨px, py, hw, hh, hr, hne⟩
  exact hne (stamp_idem_pix ⟨10, 10, fun a b => a == b⟩
    ⟨100, 100, fun _ _ => black⟩ px py).symm

/-- C7 amended: stamping never changes the pixel dimensions; and whenever
the pre-stamp image is at least 6 pixels wide and high and its pixel
(5, 5) (inside the background rectangle, unreachable by the text drawn at
(10, 10)) is not white, the top-left region of the stamped image differs
from the pre-stamp image. -/
theorem overlay_dims_and_topleft_diff (f : FontSpec) (img : Img) :
    (stamp f img).width = img.width ∧ (stamp f img).height = img.height ∧
    (5 < img.width → 5 < img.height → img.pix 5 5 ≠ white →
      topLeftDiffers f img (stamp f img)) := by
  refine ⟨rfl, rfl, fun hw hh hp => ⟨5, 5, hw, hh, ?_, ?_⟩⟩
  · simp only [inRect]
    simp
    omega
  · have ht : textAt f 5 5 = false := by
      simp [textAt]
    have hr : inRect f 5 5 = true := by
      simp only [inRect]
      simp
      omega
    simp only [stamp, ht, hr]
    simpa using hp

/-- Witness for overlay_dims_and_topleft_diff: stamping an all-black
image keeps its 100x100 dimensions and changes its top-left region. -/
theorem overlay_dims_and_topleft_diff_witness :
    (stamp ⟨10, 10, fun a b => a == b⟩ ⟨100, 100, fun _ _ => black⟩).width =
      (⟨100, 100, fun _ _ => black⟩ : Img).width ∧
    (stamp ⟨10, 10, fun a b => a == b⟩ ⟨100, 100, fun _ _ => black⟩).height =
      (⟨100, 100, fun _ _ => black⟩ : Img).height ∧
    topLeftDiffers ⟨10, 10, fun a b => a == b⟩ ⟨100, 100, fun _ _ => black⟩
      (stamp ⟨10, 10, fun a b => a == b⟩ ⟨100, 100, fun _ _ => black⟩) :=
  ⟨(overlay_dims_and_topleft_diff ⟨10, 10, fun a b => a == b⟩
      ⟨100, 100, fun _ _ => black⟩).1,
   (overlay_dims_and_topleft_diff ⟨10, 10, fun a b => a == b⟩
      ⟨100, 100, fun _ _ => black⟩).2.1,
   (overlay_dims_and_topleft_diff ⟨10, 10, fun a b => a == b⟩
      ⟨100, 100, fun _ _ => black⟩).2.2 (by decide) (by decide) (by decide)⟩

/-- Filtering the cycle events of any current time to the captures yields
exactly task A then task B. -/
theorem filter_shot_cycleSteps (now : DateTime) :
    (cycleSteps now).filter isShot = [shotA, shotB] := by
  unfold cycleSteps
  by_cases h : waitUSec now > 0 <;>
    simp [h, isShot, shotA, shotB, List.filter]

/-- The captures of a prefix of the executed statements form an initial
segment of the captures of all statements. -/
theorem filter_take_initialSegment (l : List CycleEvent) (i : Nat) :
    isInitialSegment ((l.take i).filter isShot) (l.filter isShot) :=
  ⟨(l.drop i).filter isShot, by
    rw [← List.filter_append, List.take_append_drop]⟩

/-- C4: in every cycle, whatever raise occurs, the capture events are an
initial segment of [task A, task B] (so task B never precedes task A and
neither runs twice); in a fault-free cycle the trace is exactly the
optional wait sleep, capture A (URL2 with overlay), the fixed 600 second
sleep (no recomputed wall-clock target), then capture B (URL1 with
scroll); and with no KeyboardInterrupt in the input stream the loop never
exits. -/
theorem main_cycle_order :
    (∀ inp : CycleInput,
      isInitialSegment ((cycleRun inp).1.filter isShot) [shotA, shotB]) ∧
    (∀ inp : CycleInput, inp.fault = none →
      ∃ w, (cycleRun inp).1 = w ++ [shotA, CycleEvent.fixedSleep 600, shotB] ∧
        (w = [] ∨ w = [CycleEvent.waitSleep (waitUSec inp.now)])) ∧
    (∀ inps : List CycleInput,
      (∀ x ∈ inps, ∀ i : Nat, x.fault ≠ some (i, PyRaise.interrupt)) →
        mainRun inps = none) := by
  refine ⟨?_, ?_, ?_⟩
  · intro inp
    rcases hf : inp.fault with _ | ⟨i, k⟩
    · simp only [cycleRun, hf]
      exact ⟨[], by rw [filter_shot_cycleSteps, List.append_nil]⟩
    · simp only [cycleRun, hf]
      by_cases hi : i < (cycleSteps inp.now).length
      · rw [if_pos hi]
        cases k
        · have h2 : List.filter isShot [CycleEvent.handlerSleep 60] = [] := by
            simp [isShot]
          have h3 := filter_take_initialSegment (cycleSteps inp.now) i
          rw [filter_shot_cycleSteps] at h3
          simpa [List.filter_append, h2] using h3
        · have h3 := filter_take_initialSegment (cycleSteps inp.now) i
          rw [filter_shot_cycleSteps] at h3
          simpa using h3
      · rw [if_neg hi]
        exact ⟨[], by rw [filter_shot_cycleSteps, List.append_nil]⟩
  · intro inp h
    simp only [cycleRun, h]
    unfold cycleSteps
    by_cases hw : waitUSec inp.now > 0
    · exact ⟨[CycleEvent.waitSleep (waitUSec inp.now)],
        by simp [hw, shotA, shotB], Or.inr rfl⟩
    · exact ⟨[], by simp [hw, shotA, shotB], Or.inl rfl⟩
  · intro inps
    induction inps with
    | nil => intro _; rfl
    | cons x rest ih =>
      intro h
      have hx : (cycleRun x).2 = CycleExit.cont := by
        rcases hf : x.fault with _ | ⟨i, k⟩
        · simp [cycleRun, hf]
        · cases k
          · simp only [cycleRun, hf]
            by_cases hi : i < (cycleSteps x.now).length
            · rw [if_pos hi]
            · rw [if_neg hi]
          · exact absurd hf (h x (List.mem_cons_self _ _) i)
      simp only [mainRun, hx]
      exact ih fun y hy i => h y (List.mem_cons_of_mem _ hy) i

/-- Witness for main_cycle_order: the fault-free cycle at 00:00:00 has
the canonical trace, and a two-cycle interrupt-free stream leaves the
loop running. -/
theorem main_cycle_order_witness :
    (∃ w, (cycleRun ⟨⟨0, 0, 0, 0⟩, none⟩).1 =
        w ++ [shotA, CycleEvent.fixedSleep 600, shotB] ∧
      (w = [] ∨ w = [CycleEvent.waitSleep (waitUSec ⟨0, 0, 0, 0⟩)])) ∧
    mainRun [⟨⟨0, 0, 0, 0⟩, none⟩, ⟨⟨1, 2, 3, 4⟩, some (0, PyRaise.error)⟩] =
      none :=
  ⟨main_cycle_order.2.1 ⟨⟨0, 0, 0, 0⟩, none⟩ rfl,
   main_cycle_order.2.2 [⟨⟨0, 0, 0, 0⟩, none⟩, ⟨⟨1, 2, 3, 4⟩, some (0, PyRaise.error)⟩]
    (by
      intro x hx i
      rcases List.mem_cons.mp hx with h1 | h1
      · subst h1; simp
      · rcases List.mem_cons.mp h1 with h2 | h2
        · subst h2; simp
        · simp at h2)⟩

/-- C9: an Exception raised inside the loop body is caught by the
top-level handler, which sleeps 60 seconds and lets the loop continue;
the process never reaches a non-zero exit (it is either still looping or
has exited with code 0); and it exits, with code 0, exactly when some
cycle raises a KeyboardInterrupt. -/
theorem main_loop_error_handling :
    (∀ (inp : CycleInput) (i : Nat), inp.fault = some (i, PyRaise.error) →
      i < (cycleSteps inp.now).length →
        (cycleRun inp).2 = CycleExit.cont ∧
        CycleEvent.handlerSleep 60 ∈ (cycleRun inp).1) ∧
    (∀ inps : List CycleInput, mainRun inps = none ∨ mainRun inps = some 0) ∧
    (∀ inps : List CycleInput,
      mainRun inps = some 0 ↔ ∃ x ∈ inps, (cycleRun x).2 = CycleExit.brk) := by
  refine ⟨?_, ?_, ?_⟩
  · intro inp i h hlen
    simp only [cycleRun, h]
    rw [if_pos hlen]
    exact ⟨rfl, by simp⟩
  · intro inps
    induction inps with
    | nil => exact Or.inl rfl
    | cons x rest ih =>
      cases hx : (cycleRun x).2
      · simpa [mainRun, hx] using ih
      · exact Or.inr (by simp [mainRun, hx])
  · intro inps
    induction inps with
    | nil => simp [mainRun]
    | cons x rest ih =>
      cases hx : (cycleRun x).2
      · simp [mainRun, hx, ih]
      · simp [mainRun, hx]

/-- Witness for main_loop_error_handling: an Exception at the fixed sleep
of the cycle at 00:00:00 leaves the loop continuing after the 60 second
handler sleep. -/
theorem main_loop_error_handling_witness :
    (cycleRun ⟨⟨0, 0, 0, 0⟩, some (1, PyRaise.error)⟩).2 = CycleExit.cont ∧
    CycleEvent.handlerSleep 60 ∈
      (cycleRun ⟨⟨0, 0, 0, 0⟩, some (1, PyRaise.error)⟩).1 :=
  main_loop_error_handling.1 ⟨⟨0, 0, 0, 0⟩, some (1, PyRaise.error)⟩ 1 rfl
    (by decide)

/-- Witness for no_scroll_when_zero: the task-A call (scroll 0), run
fault-free, emits no scroll instruction. -/
theorem no_scroll_when_zero_witness :
    DrvEvent.execScript (scrollScript 300) ∉
      (take_screenshot URL2 "screenshot2" 0 true
        ⟨none, ⟨2025, 1, 1, 0, 0, 0⟩⟩).1 :=
  no_scroll_when_zero URL2 "screenshot2" true ⟨none, ⟨2025, 1, 1, 0, 0, 0⟩⟩
    (scrollScript 300)
